import Mathlib

/-!
# Workshop orchestration engine — verification development

Shallow embedding of the service registry / lifecycle manager
(`app/services/service_manager.py`), the self-healer
(`app/services/healer.py`) and the incident logger
(`app/services/incident_logger.py`).

External effects (process spawning, signal delivery, network probes,
escalation notification) are modelled by explicit outcome oracles:
the functions below thread a clock into each oracle so that every
effectful call consumes one nondeterministically chosen outcome.
-/

namespace Workshop

/-- Outcome of one `subprocess.Popen` attempt in `ServiceManager._spawn`:
either a process is created (with its pid and the current time), or
`Popen` raises and the `except` branch runs. -/
inductive SpawnOutcome
  | ok (pid : Nat) (t : Nat)
  | fail
deriving Repr, DecidableEq

/-- Outcome of the `os.kill(pid, SIGTERM)` attempt in `ServiceManager._kill`:
normal delivery, `ProcessLookupError`, or any other exception. -/
inductive KillOutcome
  | ok
  | noSuchProcess
  | otherError (msg : String)
deriving Repr, DecidableEq

/-- Outcome of the `requests.get(url, timeout=3)` call in `ServiceManager._ping`:
an HTTP response (with status code and measured latency), a
`requests.ConnectionError`, a `requests.Timeout`, or any other exception. -/
inductive PingOutcome
  | resp (code : Nat) (lat : Nat)
  | connError
  | timeout
  | otherError (msg : String)
deriving Repr, DecidableEq

/-- Outcome of the `requests.post` call in `SelfHealer._notify_elaine`:
success or a network failure (the exception message). -/
inductive NotifyOutcome
  | ok
  | netFail (msg : String)
deriving Repr, DecidableEq

/-- One service record of `ServiceManager._services`: the structural fields
read from `registry.yaml` plus the runtime fields maintained in place. -/
structure Service where
  id : String
  name : String
  port : Nat
  dependencies : List String
  ghost : Bool
  start_command : String
  status : String := "stopped"
  health : String := "unknown"
  pid : Option Nat := none
  started_at : Option Nat := none
  last_health_check : Option Nat := none
  restart_count : Nat := 0
deriving Repr, DecidableEq

/-- The registry dictionary `self._services`, as an association list keyed
by `Service.id` (a Python dict: unique keys, insertion ordered). -/
abbrev Registry := List Service

/-- `self._services.get(service_id)`: dict lookup by key. -/
def getSvc : Registry → String → Option Service
  | [], _ => none
  | s :: rest, i => if s.id == i then some s else getSvc rest i

/-- In-place mutation of the dict entry with key `i` (a Python service dict
is mutated through the shared object held in `self._services`). -/
def updateSvc (st : Registry) (i : String) (f : Service → Service) : Registry :=
  st.map (fun s => if s.id == i then f s else s)

/-- Python truthiness of the `pid` field (`if pid:` in `_kill`):
`None` and `0` are falsy. -/
def pidTruthy (p : Option Nat) : Bool :=
  p.getD 0 != 0

/-- The dict returned by `ServiceManager._ping`. -/
structure PingResult where
  status : String
  latency_ms : Option Nat
  status_code : Option Nat
  timeout_flag : Bool
  error_detail : Option String
deriving Repr, DecidableEq

/-- `ServiceManager._ping`: one HTTP health probe of `svc`, given the
probe's outcome `o` and the current time `now`.  Returns the result dict
and the in-place-updated service. -/
def pingSvc (s : Service) (o : PingOutcome) (now : Nat) : PingResult × Service :=
  match o with
  | .resp code lat =>
      let h := if code < 400 then "healthy" else "degraded"
      (⟨h, some lat, some code, false, none⟩,
       { s with health := h, status := "running", last_health_check := some now })
  | .connError =>
      (⟨"unreachable", none, none, false, none⟩,
       { s with health := "unreachable", status := "stopped", last_health_check := some now })
  | .timeout =>
      (⟨"degraded", some 3000, none, true, none⟩,
       { s with health := "degraded", last_health_check := some now })
  | .otherError m =>
      (⟨"unreachable", none, none, false, some m⟩,
       { s with health := "unreachable", status := "stopped", last_health_check := some now })

/-- The outcome oracles for all external effects. -/
structure Env where
  spawn : Nat → SpawnOutcome
  kill : Nat → KillOutcome
  ping : Nat → PingOutcome
  now : Nat → Nat

/-- The manager's mutable world: the registry plus one clock per effect
oracle, and the trace of services for which `_spawn` was invoked. -/
structure World where
  reg : Registry
  sc : Nat := 0
  kc : Nat := 0
  pc : Nat := 0
  trace : List String := []
deriving Repr

/-- `ServiceManager._spawn` on the service object: with an empty
`start_command` it logs and returns; otherwise `Popen` either yields a pid
(status `starting`, fresh `started_at`) or raises (status `stopped`). -/
def spawnSvc (env : Nat → SpawnOutcome) (k : Nat) (s : Service) : Service × Nat :=
  if s.start_command == "" then (s, k)
  else
    match env k with
    | .ok pid t =>
        ({ s with pid := some pid, status := "starting", started_at := some t }, k + 1)
    | .fail =>
        ({ s with status := "stopped" }, k + 1)

/-- A call `self._spawn(svc)` where `svc` is the registry object with key
`i`: updates the registry in place and records the call in the trace. -/
def spawnW (env : Env) (w : World) (i : String) : World :=
  match getSvc w.reg i with
  | some s =>
      let p := spawnSvc env.spawn w.sc s
      { w with reg := updateSvc w.reg i (fun _ => p.1), sc := p.2, trace := w.trace ++ [i] }
  | none => w

/-- The `os.kill` attempt inside `_kill`: every outcome is absorbed by the
`try`/`except` clauses (all branches are equal). -/
def killAttempt (o : KillOutcome) : Unit :=
  match o with
  | .ok => ()
  | .noSuchProcess => ()
  | .otherError _ => ()

/-- `ServiceManager._kill` on the service object: attempts the signal only
for a truthy pid, absorbs every exception, then unconditionally clears
`status`/`pid`/`started_at`. -/
def killSvc (o : KillOutcome) (s : Service) : Service :=
  let _ := if pidTruthy s.pid then killAttempt o else ()
  { s with status := "stopped", pid := none, started_at := none }

/-- `ServiceManager.check_health`: `None` for an unknown id, otherwise a
`_ping` of the (found) service, updating it in place. -/
def check_health (env : Env) (w : World) (i : String) : Option PingResult × World :=
  match getSvc w.reg i with
  | none => (none, w)
  | some svc =>
      let p := pingSvc svc (env.ping w.pc) (env.now w.pc)
      (some p.1, { w with reg := updateSvc w.reg i (fun _ => p.2), pc := w.pc + 1 })

/-- Result dict of `ServiceManager.start_service` (the non-`None` cases). -/
inductive StartResult
  | ghostErr
  | conflict
  | started (dependency_chain : List String)
deriving Repr, DecidableEq

/-- Result dict of `ServiceManager.stop_service` (the non-`None` cases). -/
inductive StopResult
  | ghostErr
  | conflict
  | stopped
deriving Repr, DecidableEq

/-- Result dict of `ServiceManager.restart_service` (the non-`None` cases). -/
inductive RestartResult
  | ghostErr
  | restarting (attempt : Nat)
deriving Repr, DecidableEq

/-- The dependency loop of `start_service`: for each `dep_id`, look the
dependency up in the (current) registry; if it exists and is not
`running`, append it to `dep_chain` and `_spawn` it. -/
def startDeps (env : Env) (w : World) : List String → World × List String
  | [] => (w, [])
  | d :: rest =>
      match getSvc w.reg d with
      | some dep =>
          if dep.status != "running" then
            let r := startDeps env (spawnW env w d) rest
            (r.1, d :: r.2)
          else startDeps env w rest
      | none => startDeps env w rest

/-- `ServiceManager.start_service`: `None` for an unknown id, a ghost or
conflict error otherwise; else mark the service `starting`, spawn each
not-yet-running direct dependency found in the registry, spawn the service
itself, and return the dependency chain. -/
def start_service (env : Env) (w : World) (i : String) : Option StartResult × World :=
  match getSvc w.reg i with
  | none => (none, w)
  | some svc =>
      if svc.ghost then (some .ghostErr, w)
      else if svc.status == "running" then (some .conflict, w)
      else
        let w1 := { w with reg := updateSvc w.reg i (fun s => { s with status := "starting" }) }
        let r := startDeps env w1 svc.dependencies
        (some (.started r.2), spawnW env r.1 i)

/-- `ServiceManager.stop_service`: `None` for an unknown id, a ghost or
conflict error otherwise; else `_kill` the service (whatever the outcome
`env.kill` assigns to the signal) and report `stopped`. -/
def stop_service (env : Env) (w : World) (i : String) : Option StopResult × World :=
  match getSvc w.reg i with
  | none => (none, w)
  | some svc =>
      if svc.ghost then (some .ghostErr, w)
      else if svc.status == "stopped" then (some .conflict, w)
      else
        (some .stopped,
         { w with reg := updateSvc w.reg i (killSvc (env.kill w.kc)), kc := w.kc + 1 })

/-- `ServiceManager.restart_service`: `None` for an unknown id, a ghost
error otherwise; else `_kill`, `_spawn`, increment `restart_count` and
return it as the attempt number. -/
def restart_service (env : Env) (w : World) (i : String) : Option RestartResult × World :=
  match getSvc w.reg i with
  | none => (none, w)
  | some svc =>
      if svc.ghost then (some .ghostErr, w)
      else
        let w1 := { w with reg := updateSvc w.reg i (killSvc (env.kill w.kc)), kc := w.kc + 1 }
        let w2 := spawnW env w1 i
        let w3 := { w2 with reg := updateSvc w2.reg i (fun s => { s with restart_count := s.restart_count + 1 }) }
        let attempt := match getSvc w3.reg i with
          | some s => s.restart_count
          | none => 0
        (some (.restarting attempt), w3)

/-! ## Registry loading (`_load_registry` / `reload_registry`) -/

/-- The structural fields of one `services:` entry of `registry.yaml`. -/
structure SvcDef where
  id : String
  name : String
  port : Nat
  dependencies : List String
  ghost : Bool
  start_command : String
deriving Repr, DecidableEq

/-- Python dict assignment `self._services[svc_id] = svc`: replace the
existing entry in place, or append a new one. -/
def putSvc (st : Registry) (s : Service) : Registry :=
  if (getSvc st s.id).isSome then updateSvc st s.id (fun _ => s) else st ++ [s]

/-- The fresh service dict built by the `for svc in data.get("services", [])`
loop body: structural fields from the definition, runtime fields copied
from the existing entry (with the loop's defaults when absent). -/
def freshSvc (d : SvcDef) (existing : Option Service) : Service :=
  { id := d.id
    name := d.name
    port := d.port
    dependencies := d.dependencies
    ghost := d.ghost
    start_command := d.start_command
    status := (existing.map (·.status)).getD "stopped"
    health := (existing.map (·.health)).getD "unknown"
    pid := existing.bind (·.pid)
    started_at := existing.bind (·.started_at)
    last_health_check := existing.bind (·.last_health_check)
    restart_count := (existing.map (·.restart_count)).getD 0 }

/-- The body of the loop: look up the existing entry, build the fresh
dict, store it under its id. -/
def mergeDef (st : Registry) (d : SvcDef) : Registry :=
  putSvc st (freshSvc d (getSvc st d.id))

/-- The successful branch of `_load_registry`: fold the loop body over the
parsed service definitions, starting from the current registry. -/
def loadFromData (defs : List SvcDef) (st : Registry) : Registry :=
  defs.foldl mergeDef st

/-- What `open` + `yaml.safe_load` produced for the registry file:
the file is missing (`FileNotFoundError`), the content is not valid YAML
(`yaml.YAMLError`), or it is valid YAML — either the expected mapping
(whose `services` key may be absent) or some other YAML document
(`None` from an empty file, a list, a scalar, …). -/
inductive RegistrySource
  | missing
  | invalidYaml
  | mapping (services : Option (List SvcDef))
  | otherYaml (descr : String)
deriving Repr, DecidableEq

/-- `ServiceManager._load_registry`: `FileNotFoundError` and
`yaml.YAMLError` are caught (error logged, registry kept); a parsed
mapping runs the merge loop over `data.get("services", [])`; any other
YAML document reaches `data.get(...)` and raises an uncaught
`AttributeError` out of the method. -/
def load_registry (src : RegistrySource) (st : Registry) : Except String Registry :=
  match src with
  | .missing => .ok st
  | .invalidYaml => .ok st
  | .mapping (some defs) => .ok (loadFromData defs st)
  | .mapping none => .ok (loadFromData [] st)
  | .otherYaml descr => .error ("AttributeError: " ++ descr ++ " has no attribute get")

/-- `ServiceManager.reload_registry` is `_load_registry` under the lock. -/
def reload_registry (src : RegistrySource) (st : Registry) : Except String Registry :=
  load_registry src st

/-! ## Incident logger (`incident_logger.py`) -/

/-- `f"{n:04d}"`: decimal digits zero-padded to width 4. -/
def pad4 (n : Nat) : String :=
  if n < 10 then "000" ++ toString n
  else if n < 100 then "00" ++ toString n
  else if n < 1000 then "0" ++ toString n
  else toString n

/-- The incident id format of `_next_id`: `f"INC-{counter:04d}"`. -/
def incFormat (n : Nat) : String :=
  "INC-" ++ pad4 n

/-- `_next_id`: increment the counter and format the id. -/
def nextId (counter : Nat) : Nat × String :=
  (counter + 1, incFormat (counter + 1))

/-- The ids persisted by `n` successive `log_event` calls starting from a
fresh counter (each call persists `_next_id()` as the row's primary key). -/
def runIds : Nat → List String
  | 0 => []
  | n + 1 => runIds n ++ [incFormat (n + 1)]

/-- SQLite's BINARY collation on (ASCII) TEXT values: byte-wise
lexicographic comparison. -/
def bytesLt : List Char → List Char → Bool
  | [], [] => false
  | [], _ :: _ => true
  | _ :: _, [] => false
  | c :: cs, d :: ds =>
      if c.toNat < d.toNat then true
      else if d.toNat < c.toNat then false
      else bytesLt cs ds

/-- BINARY-collation comparison of two TEXT column values. -/
def textLt (a b : String) : Bool :=
  bytesLt a.data b.data

/-- A fold computing the BINARY-collation maximum of TEXT values, seeded
with an accumulator. -/
def textMaxFrom (acc : Option String) (db : List String) : Option String :=
  db.foldl
    (fun acc s =>
      match acc with
      | none => some s
      | some a => if textLt a s then some s else some a)
    acc

/-- `SELECT id FROM incidents ORDER BY id DESC LIMIT 1`: the maximum of
the TEXT primary-key column under SQLite's BINARY (byte-wise) ordering. -/
def textMax (db : List String) : Option String :=
  textMaxFrom none db

/-- The ids assigned to events `a+1, …, a+b` of a run (a contiguous chunk
of `runIds`). -/
def chunkIds (a b : Nat) : List String :=
  (List.range b).map (fun k => incFormat (a + k + 1))

/-- Decimal digits to a number (Python `int(...)` on a digit string). -/
def digitsToNat (cs : List Char) : Nat :=
  cs.foldl (fun n c => n * 10 + (c.toNat - 48)) 0

/-- `int(row["id"].split("-")[1])`: the digits after `INC-` as a number. -/
def parseIncNum (s : String) : Nat :=
  digitsToNat (s.data.drop 4)

/-- `_init_counter`: set the counter from the top row of the TEXT-ordered
query, or leave it at `0` when the table is empty. -/
def initCounter (db : List String) : Nat :=
  match textMax db with
  | some s => parseIncNum s
  | none => 0

/-! ## Self-healer (`healer.py`) -/

/-- One record written by `incident_logger.log_event` during healing
(id and timestamp omitted: the healer's control flow never reads them). -/
structure Incident where
  app_id : String
  event : String
  cause : String
  details : String
  outcome : Option String
deriving Repr, DecidableEq

/-- `SelfHealer._healing`: the per-service "healing in progress" dict. -/
abbrev HealingMap := List (String × Bool)

/-- `self._healing.get(app_id)` truthiness (missing key is falsy). -/
def hGet : HealingMap → String → Bool
  | [], _ => false
  | p :: rest, i => if p.1 == i then p.2 else hGet rest i

/-- `self._healing[app_id] = b`: dict assignment (replace or append). -/
def hSet : HealingMap → String → Bool → HealingMap
  | [], i, b => [(i, b)]
  | p :: rest, i, b => if p.1 == i then (p.1, b) :: rest else p :: hSet rest i b

/-- `SelfHealer._is_healthy`: run `check_health` and test the result dict
for status `healthy` (a `None` result is falsy). -/
def is_healthy (env : Env) (w : World) (i : String) : Bool × World :=
  let p := check_health env w i
  (match p.1 with
   | some r => r.status == "healthy"
   | none => false,
   p.2)

/-- `SelfHealer._notify_elaine`: one `requests.post` to the escalation
sink; both success and network failure are absorbed by the
`try`/`except` (all branches are equal). -/
def notify_elaine (no : NotifyOutcome) (_i : String) : Unit :=
  match no with
  | .ok => ()
  | .netFail _ => ()

/-- A probe outcome that `_is_healthy` does not count as healthy: an
error-status response, a connection failure, a timeout, or any other
exception. -/
def pingNotHealthy : PingOutcome → Bool
  | .resp code _ => decide (400 ≤ code)
  | .connError => true
  | .timeout => true
  | .otherError _ => true

/-- The escalation incident predicate: event `crash`, cause
`all_tiers_failed`, outcome `escalated`. -/
def isEscalation (inc : Incident) : Bool :=
  inc.event == "crash" && inc.cause == "all_tiers_failed"
    && inc.outcome == some "escalated"

/-- The tier-2 dependency loop: `restart_service` each dependency. -/
def restartEach (env : Env) (w : World) : List String → World
  | [] => w
  | d :: rest => restartEach env (restart_service env w d).2 rest

/-- The tier-3 stop loop: `stop_service` each dependency. -/
def stopEach (env : Env) (w : World) : List String → World
  | [] => w
  | d :: rest => stopEach env (stop_service env w d).2 rest

/-- The tier-3 start loop: `start_service` each dependency. -/
def startEach (env : Env) (w : World) : List String → World
  | [] => w
  | d :: rest => startEach env (start_service env w d).2 rest

/-- `SelfHealer._heal`: the 3-tier recovery sequence.  Returns the list of
incidents logged (in order), the number of escalation-notification
attempts, the final world, and the healing map after the `finally`
block cleared this service's marker. -/
def heal (env : Env) (no : NotifyOutcome) (w : World) (hs : HealingMap) (i : String) :
    List Incident × Nat × World × HealingMap :=
  -- Tier 1: simple restart
  let i1 : Incident := ⟨i, "restart", "health_check_failed", "Tier 1 — simple restart", none⟩
  let wa := (restart_service env w i).2
  let c1 := is_healthy env wa i
  if c1.1 then
    ([i1, ⟨i, "restart", "tier_1_recovery", "Tier 1 succeeded", some "recovered"⟩],
     0, c1.2, hSet hs i false)
  else
    -- Tier 2: deep restart (app + dependencies)
    let i2 : Incident := ⟨i, "restart", "tier_1_failed", "Tier 2 — deep restart with dependencies", none⟩
    let view := getSvc c1.2.reg i
    let wb := match view with
      | some v => restartEach env c1.2 v.dependencies
      | none => c1.2
    let wc := (restart_service env wb i).2
    let c2 := is_healthy env wc i
    if c2.1 then
      ([i1, i2, ⟨i, "restart", "tier_2_recovery", "Tier 2 succeeded", some "recovered"⟩],
       0, c2.2, hSet hs i false)
    else
      -- Tier 3: full recovery
      let i3 : Incident := ⟨i, "restart", "tier_2_failed", "Tier 3 — full recovery", none⟩
      let wd := (stop_service env c2.2 i).2
      let we := match view with
        | some v => stopEach env wd v.dependencies
        | none => wd
      let wf := match view with
        | some v => startEach env we v.dependencies
        | none => we
      let wg := (start_service env wf i).2
      let c3 := is_healthy env wg i
      if c3.1 then
        ([i1, i2, i3, ⟨i, "restart", "tier_3_recovery", "Tier 3 succeeded", some "recovered"⟩],
         0, c3.2, hSet hs i false)
      else
        -- Escalation
        let i4 : Incident :=
          ⟨i, "crash", "all_tiers_failed", "Escalated after 3 recovery tiers failed", some "escalated"⟩
        let _ := notify_elaine no i
        ([i1, i2, i3, i4], 1, c3.2, hSet hs i false)

/-- `SelfHealer.on_health_failure` together with the healing worker it
starts: the guard makes the call a no-op when a session is already
active; otherwise the marker is set and `_heal` runs. -/
def on_health_failure (env : Env) (no : NotifyOutcome) (w : World) (hs : HealingMap) (i : String) :
    List Incident × Nat × World × HealingMap :=
  if hGet hs i then ([], 0, w, hs)
  else heal env no w (hSet hs i true) i

/-- Does the dependency loop of `start_service` spawn `d` given registry
`st`: `d` must exist and not be `running`. -/
def depQualifies (st : Registry) (d : String) : Bool :=
  match getSvc st d with
  | some dep => dep.status != "running"
  | none => false

/-! ## Concrete fixtures for witnesses -/

/-- A plain runnable service used by witnesses. -/
def svcA : Service :=
  { id := "alpha", name := "Alpha", port := 5001, dependencies := ["beta", "gamma", "missing"],
    ghost := false, start_command := "python alpha.py" }

/-- A stopped dependency of `svcA`. -/
def svcB : Service :=
  { id := "beta", name := "Beta", port := 5002, dependencies := [],
    ghost := false, start_command := "python beta.py" }

/-- A running dependency of `svcA`. -/
def svcC : Service :=
  { id := "gamma", name := "Gamma", port := 5003, dependencies := [],
    ghost := false, start_command := "python gamma.py", status := "running",
    pid := some 41, started_at := some 5 }

/-- A ghost service (declared but not runnable). -/
def svcG : Service :=
  { id := "wisp", name := "Wisp", port := 5009, dependencies := [],
    ghost := true, start_command := "" }

/-- The witness registry. -/
def reg0 : Registry := [svcA, svcB, svcC, svcG]

/-- The witness world. -/
def w0 : World := { reg := reg0 }

/-- A benign effect environment: every spawn succeeds, every signal is
delivered, every probe answers HTTP 200. -/
def env0 : Env :=
  { spawn := fun k => .ok (100 + k) (50 + k)
    kill := fun _ => .ok
    ping := fun _ => .resp 200 12
    now := fun k => 900 + k }

/-- An environment whose every probe fails with a connection error. -/
def envDown : Env :=
  { spawn := fun k => .ok (100 + k) (50 + k)
    kill := fun _ => .ok
    ping := fun _ => .connError
    now := fun k => 900 + k }

/-! ## Registry helper lemmas -/

theorem getSvc_updateSvc_self (st : Registry) (i : String) (f : Service → Service)
    (hf : ∀ s, s.id = i → (f s).id = s.id) :
    getSvc (updateSvc st i f) i = (getSvc st i).map f := by
  induction st with
  | nil => rfl
  | cons s rest ih =>
      by_cases h : (s.id == i) = true
      · simp [getSvc, updateSvc, h, hf s (by simpa using h)]
      · have hb : (s.id == i) = false := by simpa using h
        simpa [getSvc, updateSvc, hb] using ih

theorem getSvc_updateSvc_other (st : Registry) (i j : String) (f : Service → Service)
    (hf : ∀ s, s.id = i → (f s).id = s.id) (hij : j ≠ i) :
    getSvc (updateSvc st i f) j = getSvc st j := by
  induction st with
  | nil => rfl
  | cons s rest ih =>
      by_cases h : (s.id == i) = true
      · have hi : s.id = i := by simpa using h
        have hb2 : ((f s).id == j) = false := by
          simp only [hf s hi, hi]
          simpa using fun hc => (hij hc.symm).elim
        have hb3 : (s.id == j) = false := by
          simp only [hi]
          simpa using fun hc => (hij hc.symm).elim
        simpa [getSvc, updateSvc, h, hb2, hb3] using ih
      · have hb : (s.id == i) = false := by simpa using h
        by_cases h2 : (s.id == j) = true
        · simp [getSvc, updateSvc, hb, h2]
        · have hb2 : (s.id == j) = false := by simpa using h2
          simpa [getSvc, updateSvc, hb, hb2] using ih

theorem updateSvc_map_id (st : Registry) (i : String) (f : Service → Service)
    (hf : ∀ s, s.id = i → (f s).id = s.id) :
    (updateSvc st i f).map Service.id = st.map Service.id := by
  induction st with
  | nil => rfl
  | cons s rest ih =>
      show ((if (s.id == i) = true then f s else s) :: updateSvc rest i f).map Service.id
          = s.id :: rest.map Service.id
      by_cases h : (s.id == i) = true
      · rw [if_pos h, List.map_cons, hf s (by simpa using h), ih]
      · rw [if_neg h, List.map_cons, ih]

theorem spawnSvc_id (env : Nat → SpawnOutcome) (k : Nat) (s : Service) :
    (spawnSvc env k s).1.id = s.id := by
  unfold spawnSvc
  by_cases h : (s.start_command == "") = true
  · rw [if_pos h]
  · rw [if_neg h]
    cases env k <;> rfl

theorem getSvc_id (st : Registry) (i : String) (s : Service)
    (h : getSvc st i = some s) : s.id = i := by
  induction st with
  | nil => simp [getSvc] at h
  | cons a rest ih =>
      by_cases ha : (a.id == i) = true
      · simp [getSvc, ha] at h
        subst h
        simpa using ha
      · simp [getSvc, ha] at h
        exact ih h

theorem spawnW_frame (env : Env) (w : World) (d e : String) (hne : e ≠ d) :
    getSvc (spawnW env w d).reg e = getSvc w.reg e := by
  unfold spawnW
  cases hfind : getSvc w.reg d with
  | none => rfl
  | some s =>
      have hid := getSvc_id w.reg d s hfind
      exact getSvc_updateSvc_other w.reg d e _
        (fun s' h' => by rw [spawnSvc_id, hid, h']) hne

theorem spawnW_self (env : Env) (w : World) (d : String) (s : Service)
    (hfind : getSvc w.reg d = some s) :
    getSvc (spawnW env w d).reg d = some (spawnSvc env.spawn w.sc s).1 := by
  unfold spawnW
  rw [hfind]
  have hid := getSvc_id w.reg d s hfind
  have := getSvc_updateSvc_self w.reg d (fun _ => (spawnSvc env.spawn w.sc s).1)
    (fun s' h' => by rw [spawnSvc_id, hid, h'])
  simpa [hfind] using this

theorem spawnW_trace (env : Env) (w : World) (d : String) (s : Service)
    (hfind : getSvc w.reg d = some s) :
    (spawnW env w d).trace = w.trace ++ [d] := by
  unfold spawnW
  rw [hfind]

theorem spawnW_map_id (env : Env) (w : World) (d : String) :
    (spawnW env w d).reg.map Service.id = w.reg.map Service.id := by
  unfold spawnW
  cases hfind : getSvc w.reg d with
  | none => rfl
  | some s =>
      have hid := getSvc_id w.reg d s hfind
      exact updateSvc_map_id w.reg d _ (fun s' h' => by rw [spawnSvc_id, hid, h'])

/-- C2: one health probe maps its outcome exactly as specified: an HTTP
response with status code < 400 sets health `healthy` and status
`running`; a response with code ≥ 400 sets health `degraded` and status
`running`; a connection failure sets health `unreachable` and status
`stopped`; a timeout sets health `degraded`, leaves the status unchanged
and reports the synthetic 3000 ms latency; and every one of these
outcomes updates `last_health_check` to the probe time. -/
theorem ping_outcome_mapping (s : Service) (now code lat : Nat) :
    (code < 400 →
      (pingSvc s (.resp code lat) now).2.health = "healthy" ∧
      (pingSvc s (.resp code lat) now).2.status = "running") ∧
    (400 ≤ code →
      (pingSvc s (.resp code lat) now).2.health = "degraded" ∧
      (pingSvc s (.resp code lat) now).2.status = "running") ∧
    ((pingSvc s .connError now).2.health = "unreachable" ∧
      (pingSvc s .connError now).2.status = "stopped") ∧
    ((pingSvc s .timeout now).2.health = "degraded" ∧
      (pingSvc s .timeout now).2.status = s.status ∧
      (pingSvc s .timeout now).1.latency_ms = some 3000) ∧
    ((pingSvc s (.resp code lat) now).2.last_health_check = some now ∧
      (pingSvc s .connError now).2.last_health_check = some now ∧
      (pingSvc s .timeout now).2.last_health_check = some now) := by
  refine ⟨fun h => ?_, fun h => ?_, ?_, ?_, ?_⟩ <;>
    simp_all [pingSvc, Nat.not_lt]

/-- Witness for C2 at concrete inputs. -/
theorem ping_outcome_mapping_witness :
    ((pingSvc svcB (.resp 200 12) 7).2.health = "healthy" ∧
      (pingSvc svcB (.resp 200 12) 7).2.status = "running") ∧
    ((pingSvc svcB (.resp 503 9) 7).2.health = "degraded" ∧
      (pingSvc svcB (.resp 503 9) 7).2.status = "running") :=
  ⟨(ping_outcome_mapping svcB 7 200 12).1 (by decide),
   (ping_outcome_mapping svcB 7 503 9).2.1 (by decide)⟩

theorem startDeps_spec (env : Env) :
    ∀ (deps : List String) (w : World), deps.Nodup →
      (startDeps env w deps).2 = deps.filter (depQualifies w.reg) ∧
      (startDeps env w deps).1.trace = w.trace ++ (startDeps env w deps).2 ∧
      (startDeps env w deps).1.reg.map Service.id = w.reg.map Service.id ∧
      (∀ e, e ∉ deps → getSvc (startDeps env w deps).1.reg e = getSvc w.reg e) := by
  intro deps
  induction deps with
  | nil =>
      intro w _
      exact ⟨rfl, by simp [startDeps], rfl, fun e _ => rfl⟩
  | cons d rest ih =>
      intro w hnd
      obtain ⟨hd, hrest⟩ := List.nodup_cons.mp hnd
      cases hfind : getSvc w.reg d with
      | none =>
          have hq : depQualifies w.reg d = false := by simp [depQualifies, hfind]
          obtain ⟨h1, h2, h3, h4⟩ := ih w hrest
          have hrw : startDeps env w (d :: rest) = startDeps env w rest := by
            simp only [startDeps, hfind]
          refine ⟨?_, ?_, ?_, ?_⟩
          · rw [hrw, h1, List.filter_cons, hq]
            simp
          · rw [hrw, h2]
          · rw [hrw, h3]
          · intro e he
            have : e ∉ rest := fun hc => he (List.mem_cons_of_mem d hc)
            rw [hrw, h4 e this]
      | some dep =>
          by_cases hrun : (dep.status != "running") = true
          · -- dependency is spawned
            have hq : depQualifies w.reg d = true := by simp [depQualifies, hfind, hrun]
            obtain ⟨h1, h2, h3, h4⟩ := ih (spawnW env w d) hrest
            have hfr : ∀ e ∈ rest, depQualifies (spawnW env w d).reg e = depQualifies w.reg e := by
              intro e he
              have hne : e ≠ d := fun hc => hd (hc ▸ he)
              simp [depQualifies, spawnW_frame env w d e hne]
            have hfilter : rest.filter (depQualifies (spawnW env w d).reg)
                = rest.filter (depQualifies w.reg) := List.filter_congr hfr
            have hchain : (startDeps env w (d :: rest)).2
                = d :: rest.filter (depQualifies w.reg) := by
              simp only [startDeps, hfind, hrun, if_pos]
              rw [h1, hfilter]
            refine ⟨?_, ?_, ?_, ?_⟩
            · rw [hchain, List.filter_cons, hq]
              simp
            · have htr : (startDeps env w (d :: rest)).1.trace
                  = (spawnW env w d).trace ++ (startDeps env (spawnW env w d) rest).2 := by
                simp only [startDeps, hfind, hrun, if_pos]
                exact h2
              rw [htr, spawnW_trace env w d dep hfind, hchain, h1, hfilter]
              simp
            · have : (startDeps env w (d :: rest)).1.reg
                  = (startDeps env (spawnW env w d) rest).1.reg := by
                simp only [startDeps, hfind, hrun, if_pos]
              rw [this, h3, spawnW_map_id]
            · intro e he
              have hner : e ∉ rest := fun hc => he (List.mem_cons_of_mem d hc)
              have hned : e ≠ d := fun hc => he (hc ▸ List.mem_cons_self d rest)
              have : (startDeps env w (d :: rest)).1.reg
                  = (startDeps env (spawnW env w d) rest).1.reg := by
                simp only [startDeps, hfind, hrun, if_pos]
              rw [this, h4 e hner, spawnW_frame env w d e hned]
          · -- dependency already running: skipped
            have hq : depQualifies w.reg d = false := by
              simp only [depQualifies, hfind]
              simpa using hrun
            obtain ⟨h1, h2, h3, h4⟩ := ih w hrest
            have hrw : startDeps env w (d :: rest) = startDeps env w rest := by
              simp only [startDeps, hfind]
              rw [if_neg hrun]
            refine ⟨?_, ?_, ?_, ?_⟩
            · rw [hrw, h1, List.filter_cons, hq]
              simp
            · rw [hrw, h2]
            · rw [hrw, h3]
            · intro e he
              have : e ∉ rest := fun hc => he (List.mem_cons_of_mem d hc)
              rw [hrw, h4 e this]

theorem spawnSvc_status_starting (env : Nat → SpawnOutcome) (k : Nat) (s : Service)
    (hs : s.status = "starting") (henv : ∀ n, env n ≠ .fail) :
    (spawnSvc env k s).1.status = "starting" := by
  unfold spawnSvc
  by_cases h : (s.start_command == "") = true
  · rw [if_pos h]; exact hs
  · rw [if_neg h]
    cases hk : env k with
    | ok pid t => rfl
    | fail => exact absurd hk (henv k)

/-- C1: for a known, non-ghost service `i` that is not `running`,
`start_service` succeeds: it reports status `starting`, the dependency
chain is exactly the direct dependencies that exist in the registry and
are not already `running`, each of those is spawned exactly once and
before `i` itself, the service ends up `starting` (when no spawn fails),
and no registry entry is created or removed, so dangling dependency ids
are skipped without being created. -/
theorem start_service_spec (env : Env) (w : World) (i : String) (svc : Service)
    (hfind : getSvc w.reg i = some svc)
    (hghost : svc.ghost = false)
    (hrun : svc.status ≠ "running")
    (hdnd : svc.dependencies.Nodup)
    (hself : i ∉ svc.dependencies)
    (henv : ∀ n, env.spawn n ≠ .fail) :
    (start_service env w i).1 =
        some (.started (svc.dependencies.filter (depQualifies w.reg))) ∧
    (start_service env w i).2.trace =
        w.trace ++ svc.dependencies.filter (depQualifies w.reg) ++ [i] ∧
    (∀ d ∈ svc.dependencies.filter (depQualifies w.reg),
        ((start_service env w i).2.trace.drop w.trace.length).count d = 1) ∧
    ((start_service env w i).2.trace.drop w.trace.length).count i = 1 ∧
    (getSvc (start_service env w i).2.reg i).map Service.status = some "starting" ∧
    (start_service env w i).2.reg.map Service.id = w.reg.map Service.id := by
  have hghostb : (svc.ghost = true) = False := by simp [hghost]
  have hrunb : (svc.status == "running") = false := by simpa using hrun
  -- the world after `svc["status"] = "starting"`
  set w1 : World := { w with reg := updateSvc w.reg i (fun s => { s with status := "starting" }) }
    with hw1
  have hrw : start_service env w i =
      (some (.started (startDeps env w1 svc.dependencies).2),
        spawnW env (startDeps env w1 svc.dependencies).1 i) := by
    simp only [start_service, hfind, hghost, Bool.false_eq_true, if_false, hrunb, hw1]
  have hid1 := getSvc_id w.reg i svc hfind
  have hw1reg : w1.reg = updateSvc w.reg i (fun s => { s with status := "starting" }) := rfl
  have hw1tr : w1.trace = w.trace := rfl
  have hfind1 : getSvc w1.reg i = some { svc with status := "starting" } := by
    rw [hw1reg,
      getSvc_updateSvc_self w.reg i (fun s => { s with status := "starting" }) (fun s _ => rfl),
      hfind]
    rfl
  obtain ⟨h1, h2, h3, h4⟩ := startDeps_spec env svc.dependencies w1 hdnd
  -- statuses of the dependencies are unchanged by the status write on `i`
  have hfilter : svc.dependencies.filter (depQualifies w1.reg)
      = svc.dependencies.filter (depQualifies w.reg) := by
    refine List.filter_congr ?_
    intro e he
    have hne : e ≠ i := fun hc => hself (hc ▸ he)
    have : getSvc w1.reg e = getSvc w.reg e := by
      rw [hw1reg]
      exact getSvc_updateSvc_other w.reg i e
        (fun s => { s with status := "starting" }) (fun s _ => rfl) hne
    simp [depQualifies, this]
  set dw := (startDeps env w1 svc.dependencies).1 with hdw
  have hfind2 : getSvc dw.reg i = some { svc with status := "starting" } := by
    rw [hdw, h4 i hself, hfind1]
  have htrace : (start_service env w i).2.trace
      = w.trace ++ svc.dependencies.filter (depQualifies w.reg) ++ [i] := by
    rw [hrw]
    show (spawnW env dw i).trace = _
    rw [spawnW_trace env dw i { svc with status := "starting" } hfind2, h2, h1, hfilter, hw1tr]
  have hchain : (startDeps env w1 svc.dependencies).2
      = svc.dependencies.filter (depQualifies w.reg) := by rw [h1, hfilter]
  have hdrop : (start_service env w i).2.trace.drop w.trace.length
      = svc.dependencies.filter (depQualifies w.reg) ++ [i] := by
    rw [htrace, List.append_assoc, List.drop_left]
  have hsub : ∀ d ∈ svc.dependencies.filter (depQualifies w.reg), d ≠ i := by
    intro d hdm hc
    exact hself (hc ▸ List.mem_of_mem_filter hdm)
  refine ⟨?_, htrace, ?_, ?_, ?_, ?_⟩
  · rw [hrw]
    show some (StartResult.started (startDeps env w1 svc.dependencies).2)
        = some (StartResult.started (svc.dependencies.filter (depQualifies w.reg)))
    rw [hchain]
  · intro d hdm
    rw [hdrop, List.count_append]
    have hnd' : (svc.dependencies.filter (depQualifies w.reg)).Nodup :=
      hdnd.filter _
    rw [List.count_eq_one_of_mem hnd' hdm]
    have : d ≠ i := hsub d hdm
    simp [List.count_singleton, this]
  · rw [hdrop, List.count_append]
    have hni : i ∉ svc.dependencies.filter (depQualifies w.reg) :=
      fun hc => hself (List.mem_of_mem_filter hc)
    rw [List.count_eq_zero_of_not_mem hni]
    simp
  · rw [hrw]
    show (getSvc (spawnW env dw i).reg i).map Service.status = _
    rw [spawnW_self env dw i { svc with status := "starting" } hfind2]
    simp only [Option.map_some']
    rw [spawnSvc_status_starting env.spawn dw.sc _ rfl henv]
  · rw [hrw]
    show (spawnW env dw i).reg.map Service.id = _
    rw [spawnW_map_id, h3, hw1reg]
    exact updateSvc_map_id w.reg i (fun s => { s with status := "starting" }) (fun s _ => rfl)

/-- Witness for C1: starting `alpha` (stopped, deps `beta` stopped,
`gamma` running, `missing` dangling) spawns exactly `beta` then `alpha`
and reports chain `[beta]`. -/
theorem start_service_spec_witness :
    (start_service env0 w0 "alpha").1 = some (.started ["beta"]) ∧
    (start_service env0 w0 "alpha").2.trace = ["beta", "alpha"] ∧
    (getSvc (start_service env0 w0 "alpha").2.reg "alpha").map Service.status
      = some "starting" := by
  have h := start_service_spec env0 w0 "alpha" svcA (by decide) (by decide)
    (by decide) (by decide) (by decide) (fun n => by simp [env0])
  exact ⟨h.1.trans (by decide), (h.2.1).trans (by decide), h.2.2.2.2.1⟩

/-- C9: on a known, non-ghost, non-stopped service, the first
`stop_service` returns `stopped` and clears `pid`/`started_at`; the
immediately following `stop_service` returns a conflict and changes
nothing at all. -/
theorem stop_service_twice (env env2 : Env) (w : World) (i : String) (svc : Service)
    (hfind : getSvc w.reg i = some svc)
    (hghost : svc.ghost = false)
    (hstop : svc.status ≠ "stopped") :
    (stop_service env w i).1 = some .stopped ∧
    getSvc (stop_service env w i).2.reg i = some (killSvc (env.kill w.kc) svc) ∧
    (killSvc (env.kill w.kc) svc).status = "stopped" ∧
    (killSvc (env.kill w.kc) svc).pid = none ∧
    (killSvc (env.kill w.kc) svc).started_at = none ∧
    (stop_service env2 (stop_service env w i).2 i).1 = some .conflict ∧
    (stop_service env2 (stop_service env w i).2 i).2 = (stop_service env w i).2 := by
  have hstopb : (svc.status == "stopped") = false := by simpa using hstop
  set w2 : World := { w with reg := updateSvc w.reg i (killSvc (env.kill w.kc)), kc := w.kc + 1 }
    with hw2
  have hrw : stop_service env w i = (some .stopped, w2) := by
    simp only [stop_service, hfind, hghost, Bool.false_eq_true, if_false, hstopb, hw2]
  have hfind2 : getSvc w2.reg i = some (killSvc (env.kill w.kc) svc) := by
    show getSvc (updateSvc w.reg i (killSvc (env.kill w.kc))) i = _
    rw [getSvc_updateSvc_self w.reg i (killSvc (env.kill w.kc)) (fun s _ => rfl), hfind]
    rfl
  have hghost2 : (killSvc (env.kill w.kc) svc).ghost = false := hghost
  have hstat2 : ((killSvc (env.kill w.kc) svc).status == "stopped") = true := rfl
  have hsecond : stop_service env2 w2 i = (some .conflict, w2) := by
    simp only [stop_service, hfind2, hghost2, Bool.false_eq_true, if_false, hstat2, if_true]
  refine ⟨by rw [hrw], ?_, rfl, rfl, rfl, ?_, ?_⟩
  · rw [hrw]
    exact hfind2
  · rw [hrw]
    show (stop_service env2 w2 i).1 = some .conflict
    rw [hsecond]
  · rw [hrw]
    show (stop_service env2 w2 i).2 = w2
    rw [hsecond]

/-- Witness for C9 at concrete inputs: stopping the running `gamma` twice. -/
theorem stop_service_twice_witness :
    (stop_service env0 w0 "gamma").1 = some .stopped ∧
    (stop_service env0 (stop_service env0 w0 "gamma").2 "gamma").1 = some .conflict ∧
    (stop_service env0 (stop_service env0 w0 "gamma").2 "gamma").2
      = (stop_service env0 w0 "gamma").2 := by
  have h := stop_service_twice env0 env0 w0 "gamma" svcC (by decide) (by decide) (by decide)
  exact ⟨h.1, h.2.2.2.2.2.1, h.2.2.2.2.2.2⟩

/-- C10: `stop_service` on a known, non-ghost, non-stopped service always
returns `stopped` and leaves the service with status `stopped`, `pid`
`None` and `started_at` `None` — and this is independent of the outcome
of the termination signal (`_kill` absorbs `ProcessLookupError` and every
other exception). -/
theorem stop_service_absorbs_kill_errors (env : Env) (w : World) (i : String) (svc : Service)
    (hfind : getSvc w.reg i = some svc)
    (hghost : svc.ghost = false)
    (hstop : svc.status ≠ "stopped") :
    (stop_service env w i).1 = some .stopped ∧
    (getSvc (stop_service env w i).2.reg i).map Service.status = some "stopped" ∧
    (getSvc (stop_service env w i).2.reg i).map Service.pid = some none ∧
    (getSvc (stop_service env w i).2.reg i).map Service.started_at = some none ∧
    (∀ o o2 : KillOutcome, killSvc o svc = killSvc o2 svc) := by
  obtain ⟨h1, h2, h3, h4, h5, -, -⟩ := stop_service_twice env env w i svc hfind hghost hstop
  refine ⟨h1, ?_, ?_, ?_, fun o o2 => rfl⟩ <;> rw [h2] <;> simp [h3, h4, h5]

/-- Witness for C10: stopping `gamma` with an environment whose signal
delivery raises an arbitrary error still stops it and clears its pid. -/
theorem stop_service_absorbs_kill_errors_witness :
    (stop_service { env0 with kill := fun _ => .otherError "EPERM" } w0 "gamma").1
      = some .stopped ∧
    (getSvc (stop_service { env0 with kill := fun _ => .otherError "EPERM" } w0 "gamma").2.reg
        "gamma").map Service.pid = some none := by
  have h := stop_service_absorbs_kill_errors { env0 with kill := fun _ => .otherError "EPERM" }
    w0 "gamma" svcC (by decide) (by decide) (by decide)
  exact ⟨h.1, h.2.2.1⟩

/-- C3 (failing part): `check_health` has no ghost guard — probing the
ghost service `wisp` (declared `stopped`, health `unknown`) issues the
HTTP request and, on a 200 response, mutates it to status `running` and
health `healthy`, contradicting the ghost invariant. -/
theorem check_health_probes_ghost :
    svcG.ghost = true ∧
    svcG.status = "stopped" ∧ svcG.health = "unknown" ∧
    (check_health env0 w0 "wisp").1
      = some ⟨"healthy", some 12, some 200, false, none⟩ ∧
    (getSvc (check_health env0 w0 "wisp").2.reg "wisp").map Service.status
      = some "running" ∧
    (getSvc (check_health env0 w0 "wisp").2.reg "wisp").map Service.health
      = some "healthy" := by decide

/-! ## Loader lemmas (C7, C8) -/

theorem getSvc_append (st l : Registry) (j : String) :
    getSvc (st ++ l) j = match getSvc st j with
      | some s => some s
      | none => getSvc l j := by
  induction st with
  | nil => rfl
  | cons s rest ih =>
      by_cases h : (s.id == j) = true
      · simp [getSvc, h]
      · have hb : (s.id == j) = false := by simpa using h
        simpa [getSvc, hb] using ih

theorem putSvc_self (st : Registry) (s : Service) :
    getSvc (putSvc st s) s.id = some s := by
  unfold putSvc
  by_cases hex : (getSvc st s.id).isSome = true
  · rw [if_pos hex,
      getSvc_updateSvc_self st s.id (fun _ => s) (fun s' h' => h'.symm)]
    obtain ⟨x, hx⟩ := Option.isSome_iff_exists.mp hex
    rw [hx]
    rfl
  · rw [if_neg hex, getSvc_append]
    have : getSvc st s.id = none := by
      cases hc : getSvc st s.id with
      | none => rfl
      | some x => exact absurd (by rw [hc]; rfl) hex
    rw [this]
    simp [getSvc]

theorem putSvc_frame (st : Registry) (s : Service) (j : String) (hne : j ≠ s.id) :
    getSvc (putSvc st s) j = getSvc st j := by
  unfold putSvc
  by_cases hex : (getSvc st s.id).isSome = true
  · rw [if_pos hex]
    exact getSvc_updateSvc_other st s.id j (fun _ => s) (fun s' h' => h'.symm) hne
  · rw [if_neg hex, getSvc_append]
    cases hc : getSvc st j with
    | some x => rfl
    | none =>
        have : (s.id == j) = false := by
          simpa using fun hc2 => (hne hc2.symm).elim
        simp [getSvc, this]

theorem mergeDef_self (st : Registry) (d : SvcDef) :
    getSvc (mergeDef st d) d.id = some (freshSvc d (getSvc st d.id)) :=
  putSvc_self st (freshSvc d (getSvc st d.id))

theorem mergeDef_frame (st : Registry) (d : SvcDef) (j : String) (hne : j ≠ d.id) :
    getSvc (mergeDef st d) j = getSvc st j :=
  putSvc_frame st (freshSvc d (getSvc st d.id)) j hne

theorem loadFromData_frame (defs : List SvcDef) (st : Registry) (j : String)
    (h : ∀ e ∈ defs, j ≠ e.id) :
    getSvc (loadFromData defs st) j = getSvc st j := by
  induction defs generalizing st with
  | nil => rfl
  | cons e rest ih =>
      show getSvc (loadFromData rest (mergeDef st e)) j = getSvc st j
      rw [ih (mergeDef st e) (fun e' he' => h e' (List.mem_cons_of_mem e he')),
        mergeDef_frame st e j (h e (List.mem_cons_self e rest))]

/-- C7: reloading the definition source preserves every runtime field
(status, health, pid, started_at, last_health_check, restart_count) of a
service whose identifier already exists in the registry, while adopting
all structural fields (name, port, dependencies, command, ghost flag)
from the fresh definition. -/
theorem reload_preserves_runtime (defs : List SvcDef) (st : Registry) (d : SvcDef)
    (old : Service)
    (hnd : (defs.map SvcDef.id).Nodup)
    (hmem : d ∈ defs)
    (hold : getSvc st d.id = some old) :
    getSvc (loadFromData defs st) d.id = some
      { id := d.id, name := d.name, port := d.port, dependencies := d.dependencies,
        ghost := d.ghost, start_command := d.start_command,
        status := old.status, health := old.health, pid := old.pid,
        started_at := old.started_at, last_health_check := old.last_health_check,
        restart_count := old.restart_count } := by
  induction defs generalizing st with
  | nil => exact absurd hmem (List.not_mem_nil d)
  | cons e rest ih =>
      have hnd' : (rest.map SvcDef.id).Nodup := (List.nodup_cons.mp hnd).2
      have hhead : e.id ∉ rest.map SvcDef.id := (List.nodup_cons.mp hnd).1
      rcases List.mem_cons.mp hmem with hde | hdr
      · subst hde
        show getSvc (loadFromData rest (mergeDef st d)) d.id = _
        have hfr : ∀ e' ∈ rest, d.id ≠ e'.id := by
          intro e' he' hc
          exact hhead (hc ▸ List.mem_map_of_mem SvcDef.id he')
        rw [loadFromData_frame rest (mergeDef st d) d.id hfr, mergeDef_self, hold]
        rfl
      · have hne : d.id ≠ e.id := by
          intro hc
          exact hhead (hc ▸ List.mem_map_of_mem SvcDef.id hdr)
        show getSvc (loadFromData rest (mergeDef st e)) d.id = _
        have hold' : getSvc (mergeDef st e) d.id = some old := by
          rw [mergeDef_frame st e d.id hne, hold]
        exact ih (mergeDef st e) hnd' hdr hold'

/-- A fresh definition for `gamma` with edited name, port and command. -/
def defGamma2 : SvcDef :=
  { id := "gamma", name := "Gamma II", port := 7003, dependencies := ["beta"],
    ghost := false, start_command := "python gamma2.py" }

/-- Witness for C7: reloading with an edited `gamma` definition keeps the
running service's status, pid and start time while its name and port
change. -/
theorem reload_preserves_runtime_witness :
    getSvc (loadFromData [defGamma2] reg0) "gamma" = some
      { id := "gamma", name := "Gamma II", port := 7003, dependencies := ["beta"],
        ghost := false, start_command := "python gamma2.py",
        status := "running", health := "unknown", pid := some 41,
        started_at := some 5, last_health_check := none, restart_count := 0 } := by
  have h := reload_preserves_runtime [defGamma2] reg0 defGamma2 svcC
    (by decide) (List.mem_singleton.mpr rfl) (by decide)
  exact h.trans (by decide)

/-- C8 counterexample: a registry file that is valid YAML but not the
expected mapping (e.g. an empty file, which `yaml.safe_load` reads as
`None`) makes `data.get("services", [])` raise an `AttributeError` that
no `except` clause catches — the load raises instead of failing softly. -/
theorem load_registry_raises_on_unexpected_yaml :
    load_registry (.otherYaml "NoneType") reg0
      = .error "AttributeError: NoneType has no attribute get" := rfl

/-- C8 amended: a missing file (`FileNotFoundError`) and syntactically
invalid YAML (`yaml.YAMLError`) are soft failures — the error is logged
and the registry (empty on first load) is left exactly as it was, for
both `_load_registry` and `reload_registry`. -/
theorem load_registry_soft_fail (st : Registry) :
    load_registry .missing st = .ok st ∧
    load_registry .invalidYaml st = .ok st ∧
    reload_registry .missing st = .ok st ∧
    reload_registry .invalidYaml st = .ok st :=
  ⟨rfl, rfl, rfl, rfl⟩

/-! ## Healer lemmas (C5, C6) -/

theorem hGet_hSet (m : HealingMap) (i : String) (b : Bool) :
    hGet (hSet m i b) i = b := by
  induction m with
  | nil => simp [hGet, hSet]
  | cons p rest ih =>
      by_cases h : (p.1 == i) = true
      · simp [hGet, hSet, h]
      · have hb : (p.1 == i) = false := by simpa using h
        simp [hGet, hSet, hb, ih]

theorem heal_clears_marker (env : Env) (no : NotifyOutcome) (w : World)
    (hs : HealingMap) (i : String) :
    hGet (heal env no w hs i).2.2.2 i = false := by
  dsimp only [heal]
  split
  · exact hGet_hSet hs i false
  · split
    · exact hGet_hSet hs i false
    · split
      · exact hGet_hSet hs i false
      · exact hGet_hSet hs i false

/-- C5: at most one healing sequence per service identifier: a call to
`on_health_failure` while a session is already marked active is a
complete no-op (no incident logged, no notification, no state change),
and the session marker is cleared when the healing sequence exits by any
path, so a later failure can start a fresh attempt. -/
theorem healing_session_guard (env : Env) (no : NotifyOutcome) (w : World)
    (hs : HealingMap) (i : String) :
    (hGet hs i = true → on_health_failure env no w hs i = ([], 0, w, hs)) ∧
    hGet (heal env no w hs i).2.2.2 i = false ∧
    (hGet hs i = false →
      on_health_failure env no w hs i = heal env no w (hSet hs i true) i) := by
  refine ⟨fun h => ?_, heal_clears_marker env no w hs i, fun h => ?_⟩
  · simp [on_health_failure, h]
  · simp [on_health_failure, h]

/-- Witness for C5: with the session marker set for `alpha`, the call is
a no-op; after a full healing run from an empty map the marker is back to
false. -/
theorem healing_session_guard_witness :
    on_health_failure env0 .ok w0 [("alpha", true)] "alpha"
      = ([], 0, w0, [("alpha", true)]) ∧
    hGet (heal envDown .ok w0 [] "alpha").2.2.2 "alpha" = false :=
  ⟨(healing_session_guard env0 .ok w0 [("alpha", true)] "alpha").1 rfl,
   (healing_session_guard envDown .ok w0 [] "alpha").2.1⟩

theorem is_healthy_false (env : Env) (h : ∀ n, pingNotHealthy (env.ping n) = true)
    (w : World) (i : String) :
    (is_healthy env w i).1 = false := by
  unfold is_healthy check_health
  cases hfind : getSvc w.reg i with
  | none => rfl
  | some svc =>
      have hp := h w.pc
      cases ho : env.ping w.pc with
      | resp code lat =>
          rw [ho] at hp
          have hge : ¬ code < 400 := by
            simpa [pingNotHealthy, Nat.not_lt] using hp
          simp [pingSvc, hge]
      | connError => simp [pingSvc]
      | timeout => simp [pingSvc]
      | otherError m => simp [pingSvc]

/-- C6: when the health re-checks after Tier 1, Tier 2 and Tier 3 all
fail, the healing sequence logs exactly one incident with event `crash`,
cause `all_tiers_failed` and outcome `escalated`, makes exactly one
attempt to notify the escalation sink, and behaves identically whether
that notification succeeds or fails on the network (the failure is
absorbed, never raised). -/
theorem healer_escalates_once (env : Env) (no : NotifyOutcome) (w : World)
    (hs : HealingMap) (i : String)
    (h : ∀ n, pingNotHealthy (env.ping n) = true) :
    (heal env no w hs i).1.filter isEscalation
      = [⟨i, "crash", "all_tiers_failed",
          "Escalated after 3 recovery tiers failed", some "escalated"⟩] ∧
    (heal env no w hs i).2.1 = 1 ∧
    heal env no w hs i = heal env .ok w hs i := by
  refine ⟨?_, ?_, rfl⟩ <;>
    simp [heal, is_healthy_false env h, isEscalation]

/-- Witness for C6: a service whose port never answers goes through all
three tiers and escalates exactly once. -/
theorem healer_escalates_once_witness :
    (heal envDown (.netFail "sink down") w0 [] "alpha").1.filter isEscalation
      = [⟨"alpha", "crash", "all_tiers_failed",
          "Escalated after 3 recovery tiers failed", some "escalated"⟩] ∧
    (heal envDown (.netFail "sink down") w0 [] "alpha").2.1 = 1 :=
  ⟨(healer_escalates_once envDown (.netFail "sink down") w0 [] "alpha" (fun _ => rfl)).1,
   (healer_escalates_once envDown (.netFail "sink down") w0 [] "alpha" (fun _ => rfl)).2.1⟩

/-! ## Incident-id lemmas (C4) -/

theorem chunk_split (a b c : Nat) :
    chunkIds a (b + c) = chunkIds a b ++ chunkIds (a + b) c := by
  unfold chunkIds
  rw [List.range_add, List.map_append, List.map_map]
  congr 1
  apply List.map_congr_left
  intro k _
  show incFormat (a + (b + k) + 1) = incFormat (a + b + k + 1)
  congr 1
  omega

theorem chunk_split0 (b c : Nat) :
    chunkIds 0 (b + c) = chunkIds 0 b ++ chunkIds b c := by
  rw [chunk_split]
  congr 1
  rw [Nat.zero_add]

theorem chunk_one (n : Nat) : chunkIds n 1 = [incFormat (n + 1)] := rfl

theorem runIds_eq_chunk : ∀ n, runIds n = chunkIds 0 n
  | 0 => rfl
  | n + 1 => by
      show runIds n ++ [incFormat (n + 1)] = chunkIds 0 (n + 1)
      rw [chunk_split0 n 1, chunk_one, runIds_eq_chunk n]

theorem textMaxFrom_append (acc : Option String) (l l' : List String) :
    textMaxFrom acc (l ++ l') = textMaxFrom (textMaxFrom acc l) l' := by
  unfold textMaxFrom
  exact List.foldl_append _ _ _ _

theorem initCounter_eq (db : List String) (s : String) (h : textMax db = some s) :
    initCounter db = parseIncNum s := by
  unfold initCounter
  rw [h]

set_option maxRecDepth 100000 in
set_option maxHeartbeats 1000000 in
theorem chunkMax1 : textMaxFrom none (chunkIds 0 1000) = some "INC-1000" := by decide

set_option maxRecDepth 100000 in
set_option maxHeartbeats 1000000 in
theorem chunkMax2 : textMaxFrom (some "INC-1000") (chunkIds 1000 1000) = some "INC-2000" := by decide

set_option maxRecDepth 100000 in
set_option maxHeartbeats 1000000 in
theorem chunkMax3 : textMaxFrom (some "INC-2000") (chunkIds 2000 1000) = some "INC-3000" := by decide

set_option maxRecDepth 100000 in
set_option maxHeartbeats 1000000 in
theorem chunkMax4 : textMaxFrom (some "INC-3000") (chunkIds 3000 1000) = some "INC-4000" := by decide

set_option maxRecDepth 100000 in
set_option maxHeartbeats 1000000 in
theorem chunkMax5 : textMaxFrom (some "INC-4000") (chunkIds 4000 1000) = some "INC-5000" := by decide

set_option maxRecDepth 100000 in
set_option maxHeartbeats 1000000 in
theorem chunkMax6 : textMaxFrom (some "INC-5000") (chunkIds 5000 1000) = some "INC-6000" := by decide

set_option maxRecDepth 100000 in
set_option maxHeartbeats 1000000 in
theorem chunkMax7 : textMaxFrom (some "INC-6000") (chunkIds 6000 1000) = some "INC-7000" := by decide

set_option maxRecDepth 100000 in
set_option maxHeartbeats 1000000 in
theorem chunkMax8 : textMaxFrom (some "INC-7000") (chunkIds 7000 1000) = some "INC-8000" := by decide

set_option maxRecDepth 100000 in
set_option maxHeartbeats 1000000 in
theorem chunkMax9 : textMaxFrom (some "INC-8000") (chunkIds 8000 1000) = some "INC-9000" := by decide

set_option maxRecDepth 100000 in
set_option maxHeartbeats 1000000 in
theorem chunkMax10 : textMaxFrom (some "INC-9000") (chunkIds 9000 1000) = some "INC-9999" := by decide

theorem cumMax2 : textMaxFrom none (chunkIds 0 2000) = some "INC-2000" := by
  rw [show (2000 : Nat) = 1000 + 1000 from rfl, chunk_split0, textMaxFrom_append, chunkMax1, chunkMax2]

theorem cumMax3 : textMaxFrom none (chunkIds 0 3000) = some "INC-3000" := by
  rw [show (3000 : Nat) = 2000 + 1000 from rfl, chunk_split0, textMaxFrom_append, cumMax2, chunkMax3]

theorem cumMax4 : textMaxFrom none (chunkIds 0 4000) = some "INC-4000" := by
  rw [show (4000 : Nat) = 3000 + 1000 from rfl, chunk_split0, textMaxFrom_append, cumMax3, chunkMax4]

theorem cumMax5 : textMaxFrom none (chunkIds 0 5000) = some "INC-5000" := by
  rw [show (5000 : Nat) = 4000 + 1000 from rfl, chunk_split0, textMaxFrom_append, cumMax4, chunkMax5]

theorem cumMax6 : textMaxFrom none (chunkIds 0 6000) = some "INC-6000" := by
  rw [show (6000 : Nat) = 5000 + 1000 from rfl, chunk_split0, textMaxFrom_append, cumMax5, chunkMax6]

theorem cumMax7 : textMaxFrom none (chunkIds 0 7000) = some "INC-7000" := by
  rw [show (7000 : Nat) = 6000 + 1000 from rfl, chunk_split0, textMaxFrom_append, cumMax6, chunkMax7]

theorem cumMax8 : textMaxFrom none (chunkIds 0 8000) = some "INC-8000" := by
  rw [show (8000 : Nat) = 7000 + 1000 from rfl, chunk_split0, textMaxFrom_append, cumMax7, chunkMax8]

theorem cumMax9 : textMaxFrom none (chunkIds 0 9000) = some "INC-9000" := by
  rw [show (9000 : Nat) = 8000 + 1000 from rfl, chunk_split0, textMaxFrom_append, cumMax8, chunkMax9]

theorem cumMax10 : textMaxFrom none (chunkIds 0 10000) = some "INC-9999" := by
  rw [show (10000 : Nat) = 9000 + 1000 from rfl, chunk_split0, textMaxFrom_append, cumMax9, chunkMax10]

/-- C4 (failing scenario): after 10000 `log_event` calls the persisted
ids are `INC-0001` … `INC-10000` (`runIds 10000`).  On restart
`_init_counter` reads the top row of `ORDER BY id DESC`, which under
SQLite's TEXT ordering is `INC-9999` (not `INC-10000`), so the recovered
counter is 9999 and the next `log_event` reuses the already-persisted
identifier `INC-10000`. -/
theorem incident_id_reused_after_restart :
    "INC-10000" ∈ runIds 10000 ∧
    initCounter (runIds 10000) = 9999 ∧
    (nextId (initCounter (runIds 10000))).2 = "INC-10000" ∧
    (∀ c : Nat, (nextId c).1 = c + 1) := by
  have hmax : textMax (runIds 10000) = some "INC-9999" := by
    show textMaxFrom none (runIds 10000) = some "INC-9999"
    rw [runIds_eq_chunk]
    exact cumMax10
  have hinit : initCounter (runIds 10000) = 9999 :=
    (initCounter_eq (runIds 10000) "INC-9999" hmax).trans (by decide)
  have hmem : "INC-10000" ∈ runIds 10000 := by
    rw [runIds_eq_chunk, show (10000 : Nat) = 9999 + 1 from rfl, chunk_split0, chunk_one]
    exact List.mem_append_right _ (by decide)
  refine ⟨hmem, hinit, ?_, fun c => rfl⟩
  rw [hinit]
  decide

end Workshop
